import Mathlib

/-!
Verification of the pagination-orchestration and response-transformation
pipeline in `src/api/managed-records.js`.

The JavaScript module is shallowly embedded: each handler method becomes a
Lean function, promise chains become total functions on an explicit outcome
type (a promise is either resolved with a value or rejected with an error
message), and the in-place mutation of the shared `options` object and of
record objects is modelled by explicit state passing (functions return the
mutated value alongside their result). Machine numbers in the source are
plain JavaScript numbers used only at integral values in every claim, so
they are modelled as `Int`.
-/

namespace ManagedRecords

/-- A JavaScript value supplied as the `page` option: absent (`undefined`),
a number (the claims only involve integral pages, and `parseInt` is the
identity on integers, so numbers are modelled as `Int`), or a value that is
not of number type, such as a string. -/
inductive JsVal where
  | undef
  | num (n : Int)
  | str (s : String)
deriving DecidableEq, Repr

/-- The `options` object passed to `retrieve`: `page` and `colors`.
`colors := none` models an absent `colors` property. -/
structure Options where
  page : JsVal
  colors : Option (List String)
deriving DecidableEq, Repr

/-- The `defaultRequestOptions` constant of the source. -/
structure RequestDefaults where
  page : Int
  colors : List String
  limit : Int
deriving DecidableEq, Repr

/-- `defaultRequestOptions = { page: 1, colors: [], limit: 10 }`. -/
def defaultRequestOptions : RequestDefaults :=
  { page := 1, colors := [], limit := 10 }

/-- `primaryColors = ['red', 'blue', 'yellow']`. -/
def primaryColors : List String :=
  ["red", "blue", "yellow"]

/-- One record from the remote collection. `isPrimary` is `none` when the
`isPrimary` property is absent (as on records fresh from the wire) and
`some b` once the property holds the boolean `b`. Other pass-through fields
do not influence any claim and are omitted. -/
structure Record where
  id : Int
  color : String
  disposition : String
  isPrimary : Option Bool
deriving DecidableEq, Repr

namespace RequestHandler

/-- `calculateOffset(page, limit) = (page * limit) - limit`. -/
def calculateOffset (page : Int) (limit : Int) : Int :=
  page * limit - limit

/-- `resolveLimit()` always returns `defaultRequestOptions.limit`. -/
def resolveLimit : Int :=
  defaultRequestOptions.limit

/-- `resolveOffset()`: if `typeof this.options.page === 'number'` the page is
used as-is (`parseInt` is the identity on integral numbers), otherwise the
default page is used; then `calculateOffset` is applied with the default
limit. -/
def resolveOffset (options : Options) : Int :=
  match options.page with
  | .num n => calculateOffset n defaultRequestOptions.limit
  | _ => calculateOffset defaultRequestOptions.page defaultRequestOptions.limit

/-- `resolveColor()` returns `this.options.colors || defaultRequestOptions.colors`.
A present array is truthy in JavaScript even when empty, so `some cs` yields
`cs` and only an absent property falls back to the default `[]`. -/
def resolveColor (options : Options) : List String :=
  match options.colors with
  | some cs => cs
  | none => defaultRequestOptions.colors

/-- The query payload sent to the records endpoint; `colorFilter` is the
`"color[]"` key of the source. -/
structure Payload where
  limit : Int
  offset : Int
  colorFilter : List String
deriving DecidableEq, Repr

/-- `resolvePayload(options)` assembles limit, offset and color filter. -/
def resolvePayload (options : Options) : Payload :=
  { limit := resolveLimit
    offset := resolveOffset options
    colorFilter := resolveColor options }

end RequestHandler

/-- A parsed JSON body: either an array of records, or any other JSON value
(modelled after a JSON object such as `\x7b\x7d`: attaching properties to it
succeeds, but calling `.map` on it throws). -/
inductive Json where
  | arr (records : List Record)
  | obj
deriving DecidableEq, Repr

/-- The body of an HTTP response as seen by `response.json()`: it either
parses to a JSON value or the parse rejects. -/
inductive Body where
  | parsed (j : Json)
  | unparseable
deriving DecidableEq, Repr

/-- The outcome of one underlying `fetch`: an HTTP response with a status
and a body, or a transport-level failure (the fetch promise rejects). -/
inductive HttpOutcome where
  | response (status : Nat) (body : Body)
  | transportFailure
deriving DecidableEq, Repr

/-- A settled JavaScript promise: resolved with a value or rejected with an
error message. -/
inductive Promise (α : Type) where
  | resolved (v : α)
  | rejected (message : String)
deriving DecidableEq, Repr

/-- What the `request` promise chain carries after the `.then` handler:
`noValue` is JavaScript `undefined`, `value j` is a parsed JSON body passed
through. -/
inductive ReqResult where
  | noValue
  | value (j : Json)
deriving DecidableEq, Repr

/-- The `request` pipeline before its final `.catch`: `fetch` rejects on
transport failure; the `.then` handler returns `response.json()` when
`response.ok` (status in [200, 300)), throws for `status > 400 && status < 600`,
and returns `undefined` for every other status (the if-chain falls through,
status 400 included). `response.json()` rejects on an unparseable body. -/
def requestUncaught (outcome : HttpOutcome) : Promise ReqResult :=
  match outcome with
  | .transportFailure => .rejected "network failure during fetch"
  | .response status body =>
    if 200 ≤ status ∧ status < 300 then
      match body with
      | .parsed j => .resolved (.value j)
      | .unparseable => .rejected "SyntaxError: unexpected token in JSON"
    else if 400 < status ∧ status < 600 then
      .rejected ("Received " ++ toString status ++ " response code during fetch")
    else
      .resolved .noValue

/-- The `request` pipeline including its `.catch`: the handler logs and
returns `undefined`, so every rejection resolves to `noValue`. -/
def requestPromise (outcome : HttpOutcome) : Promise ReqResult :=
  match requestUncaught outcome with
  | .resolved v => .resolved v
  | .rejected _ => .resolved .noValue

/-- The settled value of `request(options)`. -/
def request (outcome : HttpOutcome) : ReqResult :=
  match requestUncaught outcome with
  | .resolved v => v
  | .rejected _ => .noValue

/-- A `previousPage`/`nextPage` slot in the merged response: JavaScript
`undefined`, `null`, or an adjacent page number. -/
inductive Hint where
  | undef
  | null
  | page (n : Int)
deriving DecidableEq, Repr

/-- The `.then` handler on a probe:
`response => (response && response.length > 0) ? pageNum : null`.
`undefined` is falsy; a JSON object is truthy but its `.length` is
`undefined`, and `undefined > 0` is false; only a non-empty array yields the
page number. -/
def probeHint (outcome : HttpOutcome) (pageNum : Int) : Hint :=
  match request outcome with
  | .value (.arr l) => if 0 < l.length then .page pageNum else .null
  | _ => .null

/-- The environment of one `requestPages` call: the outcome of the fetch for
the current page and of the two adjacency probes. -/
structure PagesEnv where
  currentOutcome : HttpOutcome
  prevOutcome : HttpOutcome
  nextOutcome : HttpOutcome
deriving DecidableEq, Repr

/-- The settled value of `requestPages`: `undefined` (when the merge step
threw on a missing current page and the `.catch` absorbed it), or the
current page's JSON with the two hints attached — an array of records, or a
non-array JSON value (property attachment succeeds on an object). -/
inductive PagesResult where
  | noValue
  | arrWithHints (records : List Record) (previousPage : Hint) (nextPage : Hint)
  | objWithHints (previousPage : Hint) (nextPage : Hint)
deriving DecidableEq, Repr

/-- `options.page || defaultRequestOptions.page`: a numeric 0 is falsy and
falls back to 1; any other number passes through; an absent page falls back
to 1. A non-empty string page would pass through as a non-number and poison
the page arithmetic with NaN — that case is outside the model and is
excluded by the `noStrPage` hypothesis of the theorems below. -/
def pageOr1 (v : JsVal) : Int :=
  match v with
  | .num n => if n = 0 then defaultRequestOptions.page else n
  | _ => defaultRequestOptions.page

/-- The supplied page is not a string (see `pageOr1`). -/
def noStrPage (options : Options) : Bool :=
  match options.page with
  | .str _ => false
  | _ => true

/-- `peek(options, page)` assigns `options.page = page` in place and issues a
request with the mutated options; the mutated options and the payload sent
are returned. -/
def peek (options : Options) (page : Int) : Options × RequestHandler.Payload :=
  let mutated : Options := { options with page := .num page }
  (mutated, RequestHandler.resolvePayload mutated)

/-- Everything observable about one `requestPages` call: its settled value,
the payloads of the three requests issued (current, previous probe, next
probe, in launch order), and the state of the caller's options object after
the probes mutated it. -/
structure PagesOutcome where
  result : PagesResult
  payloads : List RequestHandler.Payload
  finalOptions : Options
deriving DecidableEq, Repr

/-- `requestPages(options)`: reads `currentPage = options.page || 1`,
launches the current request with the options as supplied, then the two
probes via `peek` (each mutating `options.page`), and merges:
`responses[0].previousPage = responses[1]` throws when `responses[0]` is
`undefined`, and the trailing `.catch` turns that into a resolved
`undefined`. -/
def requestPages (options : Options) (env : PagesEnv) : PagesOutcome :=
  let currentPage := pageOr1 options.page
  let currentPayload := RequestHandler.resolvePayload options
  let prevStep := peek options (currentPage - 1)
  let nextStep := peek prevStep.1 (currentPage + 1)
  let previous := probeHint env.prevOutcome (currentPage - 1)
  let next := probeHint env.nextOutcome (currentPage + 1)
  let result : PagesResult :=
    match request env.currentOutcome with
    | .noValue => .noValue
    | .value (.arr l) => .arrWithHints l previous next
    | .value .obj => .objWithHints previous next
  { result := result
    payloads := [currentPayload, prevStep.2, nextStep.2]
    finalOptions := nextStep.1 }

/-- The argument of `ResponseHandler.resolveResponse`: a records array
carrying the two attached hints (a plain array has both hints `undef`). -/
structure PageResponse where
  records : List Record
  previousPage : Hint
  nextPage : Hint
deriving DecidableEq, Repr

/-- The plain `[]` that `transformResponse` substitutes (default parameter)
when `requestPages` settled to `undefined`: no records, no attached hints. -/
def emptyPageResponse : PageResponse :=
  { records := [], previousPage := .undef, nextPage := .undef }

namespace ResponseHandler

/-- The per-record body of `deriveAndAmendIsPrimary`:
`record.isPrimary = primaryColors.includes(record.color) ? true : false`,
mutating the record in place. -/
def amendIsPrimary (r : Record) : Record :=
  { r with isPrimary := some (primaryColors.contains r.color) }

/-- `deriveAndAmendIsPrimary()` maps `amendIsPrimary` over the records
(the mutation leaves the amended records in `this.response`). -/
def deriveAndAmendIsPrimary (records : List Record) : List Record :=
  records.map amendIsPrimary

/-- `resolveIds()` maps each record to its `id`. -/
def resolveIds (records : List Record) : List Int :=
  records.map (fun r => r.id)

/-- `resolveOpen()` filters records with `disposition === 'open'`. -/
def resolveOpen (records : List Record) : List Record :=
  records.filter (fun r => r.disposition == "open")

/-- JavaScript truthiness of an optional boolean property: an absent
property is falsy, a present one is its boolean value. -/
def jsTruthy : Option Bool → Bool
  | some b => b
  | none => false

/-- `resolveClosedPrimaryCount()` counts records with
`disposition === 'closed' && record.isPrimary`. -/
def resolveClosedPrimaryCount (records : List Record) : Nat :=
  (records.filter (fun r => r.disposition == "closed" && jsTruthy r.isPrimary)).length

/-- The aggregate returned by `resolveResponse`. `openRecords` models the
`open` field of the source (`open` is a reserved word in Lean). -/
structure Aggregate where
  previousPage : Hint
  nextPage : Hint
  ids : List Int
  openRecords : List Record
  closedPrimaryCount : Nat
deriving DecidableEq, Repr

/-- `resolveResponse(response, options)`: stores the response, amends
`isPrimary` in place (the discarded return value does not matter — the
records are mutated), and assembles the aggregate from the amended records
and the attached hints. The `options` argument is stored but never used.
The mutated response is returned alongside the aggregate to model the
in-place update. -/
def resolveResponse (response : PageResponse) : Aggregate × PageResponse :=
  let amended : PageResponse := { response with records := deriveAndAmendIsPrimary response.records }
  ({ previousPage := amended.previousPage
     nextPage := amended.nextPage
     ids := resolveIds amended.records
     openRecords := resolveOpen amended.records
     closedPrimaryCount := resolveClosedPrimaryCount amended.records },
   amended)

end ResponseHandler

/-- `transformResponse(response, options)` calls
`ResponseHandler.resolveResponse` twice on the same response object — the
first call mutates the records in place, so the second call (whose result is
returned) runs on the amended response. -/
def transformResponse (response : PageResponse) : ResponseHandler.Aggregate :=
  let first := ResponseHandler.resolveResponse response
  (ResponseHandler.resolveResponse first.2).1

/-- The settled value of `retrieve`: `undefined` or an aggregate. -/
inductive RetrieveResult where
  | noValue
  | aggregate (a : ResponseHandler.Aggregate)
deriving DecidableEq, Repr

/-- The `retrieve` chain before its final `.catch`: `requestPages` always
resolves; when it resolved `undefined` the default parameter of
`transformResponse` substitutes `[]`; when it resolved an array the
transform runs on it; when it resolved a non-array JSON value,
`this.response.map` is not a function and the `TypeError` rejects the
chain. -/
def retrieveUncaught (options : Options) (env : PagesEnv) : Promise RetrieveResult :=
  match (requestPages options env).result with
  | .noValue =>
    .resolved (.aggregate (transformResponse emptyPageResponse))
  | .arrWithHints l p n =>
    .resolved (.aggregate (transformResponse { records := l, previousPage := p, nextPage := n }))
  | .objWithHints _ _ =>
    .rejected "TypeError: this.response.map is not a function"

/-- The `retrieve` chain including its final `.catch`: the handler logs and
returns `undefined`, so every rejection resolves to `noValue`. -/
def retrievePromise (options : Options) (env : PagesEnv) : Promise RetrieveResult :=
  match retrieveUncaught options env with
  | .resolved v => .resolved v
  | .rejected _ => .resolved .noValue

/-- The settled value of `retrieve(options)`. -/
def retrieve (options : Options) (env : PagesEnv) : RetrieveResult :=
  match retrieveUncaught options env with
  | .resolved v => v
  | .rejected _ => .noValue

/-! Concrete inputs used by counterexamples and witnesses. -/

/-- A single closed non-primary record, as returned by an adjacency probe. -/
def probeRecords : List Record :=
  [{ id := 11, color := "brown", disposition := "closed", isPrimary := none }]

/-- An open primary record. -/
def sampleOpenRecord : Record :=
  { id := 1, color := "red", disposition := "open", isPrimary := none }

/-- A closed non-primary record. -/
def sampleClosedRecord : Record :=
  { id := 2, color := "green", disposition := "closed", isPrimary := none }

/-- Options targeting page 2 with an empty color filter. -/
def c1options : Options :=
  { page := .num 2, colors := some [] }

/-- Environment where the target-page fetch fails with a 500 while the
previous-page probe returns one record and the next-page probe returns an
empty page. -/
def c1env : PagesEnv :=
  { currentOutcome := .response 500 .unparseable
    prevOutcome := .response 200 (.parsed (.arr probeRecords))
    nextOutcome := .response 200 (.parsed (.arr [])) }

/-- Options targeting page 1 with no color filter. -/
def c4options : Options :=
  { page := .num 1, colors := none }

/-- Environment where the target page returns a 2xx response whose body is
parseable JSON but not an array, while both probes return empty pages. -/
def c4env : PagesEnv :=
  { currentOutcome := .response 200 (.parsed .obj)
    prevOutcome := .response 200 (.parsed (.arr []))
    nextOutcome := .response 200 (.parsed (.arr [])) }

/-- Environment where all three fetches succeed: the target page returns two
records, the previous-page probe one record, the next-page probe none. -/
def happyEnv : PagesEnv :=
  { currentOutcome := .response 200 (.parsed (.arr [sampleOpenRecord, sampleClosedRecord]))
    prevOutcome := .response 200 (.parsed (.arr probeRecords))
    nextOutcome := .response 200 (.parsed (.arr [])) }

/-- Options targeting page 3 with no color filter. -/
def c5options : Options :=
  { page := .num 3, colors := none }

/-- Environment where the target-page fetch fails at the transport level
while the next-page probe returns one record. -/
def c5env : PagesEnv :=
  { currentOutcome := .transportFailure
    prevOutcome := .response 200 (.parsed (.arr []))
    nextOutcome := .response 200 (.parsed (.arr probeRecords)) }

end ManagedRecords

namespace ManagedRecords

/-! Helper lemmas shared by the claim theorems. -/

theorem amend_preserves_disposition (r : Record) :
    (ResponseHandler.amendIsPrimary r).disposition = r.disposition := rfl

theorem amend_idem (r : Record) :
    ResponseHandler.amendIsPrimary (ResponseHandler.amendIsPrimary r) =
      ResponseHandler.amendIsPrimary r := rfl

theorem filter_open_amend (rs : List Record) :
    (rs.map ResponseHandler.amendIsPrimary).filter (fun r => r.disposition == "open")
      = (rs.filter (fun r => r.disposition == "open")).map ResponseHandler.amendIsPrimary := by
  rw [List.filter_map]
  exact congrArg (List.map ResponseHandler.amendIsPrimary) (List.filter_congr (fun a _ => rfl))

theorem filter_closed_primary_amend (rs : List Record) :
    (rs.map ResponseHandler.amendIsPrimary).filter
        (fun r => r.disposition == "closed" && ResponseHandler.jsTruthy r.isPrimary)
      = (rs.filter (fun r => r.disposition == "closed" && primaryColors.contains r.color)).map
          ResponseHandler.amendIsPrimary := by
  rw [List.filter_map]
  exact congrArg (List.map ResponseHandler.amendIsPrimary) (List.filter_congr (fun a _ => rfl))

theorem count_closed_primary_amend (rs : List Record) :
    ResponseHandler.resolveClosedPrimaryCount (ResponseHandler.deriveAndAmendIsPrimary rs) =
      (rs.filter (fun r => r.disposition == "closed" && primaryColors.contains r.color)).length := by
  unfold ResponseHandler.resolveClosedPrimaryCount ResponseHandler.deriveAndAmendIsPrimary
  rw [filter_closed_primary_amend, List.length_map]

end ManagedRecords

namespace ManagedRecords

theorem probeHint_eq_page_iff (o : HttpOutcome) (p : Int) :
    probeHint o p = Hint.page p ↔ ∃ rs, request o = ReqResult.value (Json.arr rs) ∧ rs ≠ [] := by
  cases hr : request o with
  | noValue => simp [probeHint, hr]
  | value j =>
    cases j with
    | arr l =>
      by_cases hl : 0 < l.length
      · have hne : l ≠ [] := by
          intro h0
          rw [h0] at hl
          simp at hl
        simp [probeHint, hr, hl, hne]
      · have hl0 : l = [] := by
          cases l with
          | nil => rfl
          | cons a as => simp at hl
        simp [probeHint, hr, hl, hl0]
    | obj => simp [probeHint, hr]

theorem probeHint_cases (o : HttpOutcome) (p : Int) :
    probeHint o p = Hint.page p ∨ probeHint o p = Hint.null := by
  cases hr : request o with
  | noValue => exact Or.inr (by simp [probeHint, hr])
  | value j =>
    cases j with
    | arr l =>
      by_cases hl : 0 < l.length
      · exact Or.inl (by simp [probeHint, hr, hl])
      · exact Or.inr (by simp [probeHint, hr, hl])
    | obj => exact Or.inr (by simp [probeHint, hr])

theorem requestPages_result_eq (options : Options) (env : PagesEnv) :
    (requestPages options env).result =
      match request env.currentOutcome with
      | .noValue => .noValue
      | .value (.arr l) =>
        .arrWithHints l (probeHint env.prevOutcome (pageOr1 options.page - 1))
          (probeHint env.nextOutcome (pageOr1 options.page + 1))
      | .value .obj =>
        .objWithHints (probeHint env.prevOutcome (pageOr1 options.page - 1))
          (probeHint env.nextOutcome (pageOr1 options.page + 1)) := rfl

theorem requestPages_result_noValue (options : Options) (env : PagesEnv)
    (h : request env.currentOutcome = .noValue) :
    (requestPages options env).result = .noValue := by
  rw [requestPages_result_eq, h]

theorem requestPages_result_arr (options : Options) (env : PagesEnv) (l : List Record)
    (h : request env.currentOutcome = .value (.arr l)) :
    (requestPages options env).result =
      .arrWithHints l (probeHint env.prevOutcome (pageOr1 options.page - 1))
        (probeHint env.nextOutcome (pageOr1 options.page + 1)) := by
  rw [requestPages_result_eq, h]

theorem retrieve_of_noValue (options : Options) (env : PagesEnv)
    (h : request env.currentOutcome = .noValue) :
    retrieve options env = .aggregate (transformResponse emptyPageResponse) := by
  unfold retrieve retrieveUncaught
  rw [requestPages_result_noValue options env h]

theorem retrieve_of_arr (options : Options) (env : PagesEnv) (l : List Record)
    (h : request env.currentOutcome = .value (.arr l)) :
    retrieve options env =
      .aggregate (transformResponse
        { records := l
          previousPage := probeHint env.prevOutcome (pageOr1 options.page - 1)
          nextPage := probeHint env.nextOutcome (pageOr1 options.page + 1) }) := by
  unfold retrieve retrieveUncaught
  rw [requestPages_result_arr options env l h]

theorem deriveAndAmend_idem (rs : List Record) :
    ResponseHandler.deriveAndAmendIsPrimary (ResponseHandler.deriveAndAmendIsPrimary rs)
      = ResponseHandler.deriveAndAmendIsPrimary rs := by
  unfold ResponseHandler.deriveAndAmendIsPrimary
  rw [List.map_map]
  have hfun : ResponseHandler.amendIsPrimary ∘ ResponseHandler.amendIsPrimary
      = ResponseHandler.amendIsPrimary := funext amend_idem
  rw [hfun]

theorem transformResponse_empty :
    transformResponse emptyPageResponse =
      { previousPage := .undef, nextPage := .undef, ids := [], openRecords := []
        closedPrimaryCount := 0 } := rfl

end ManagedRecords

namespace ManagedRecords

theorem resolveResponse_fst (resp : PageResponse) :
    (ResponseHandler.resolveResponse resp).1 =
      { previousPage := resp.previousPage
        nextPage := resp.nextPage
        ids := ResponseHandler.resolveIds (ResponseHandler.deriveAndAmendIsPrimary resp.records)
        openRecords :=
          ResponseHandler.resolveOpen (ResponseHandler.deriveAndAmendIsPrimary resp.records)
        closedPrimaryCount :=
          ResponseHandler.resolveClosedPrimaryCount
            (ResponseHandler.deriveAndAmendIsPrimary resp.records) } := rfl

theorem resolveResponse_snd (resp : PageResponse) :
    (ResponseHandler.resolveResponse resp).2 =
      { records := ResponseHandler.deriveAndAmendIsPrimary resp.records
        previousPage := resp.previousPage
        nextPage := resp.nextPage } := rfl

/-- Claim C2 counterexample: a number-typed page of 0 is not defaulted to
page 1 before computing the offset — the emitted offset is -10, not the 0
the claim requires for every non-positive page. -/
theorem c2_offset_counterexample :
    RequestHandler.resolveOffset { page := .num 0, colors := none } = -10
    ∧ RequestHandler.resolveOffset { page := .num 0, colors := none } ≠ 0 := by
  decide

/-- Claim C2 (amended): the emitted offset is (page - 1) * 10 for every
number-typed page — zero and negative pages included, which therefore
produce negative offsets — and the default to page 1 (offset 0) applies
exactly when the supplied page is absent or not of number type. -/
theorem c2_offset_amended :
    (∀ (cs : Option (List String)) (n : Int),
        RequestHandler.resolveOffset { page := .num n, colors := cs } = (n - 1) * 10)
    ∧ (∀ cs : Option (List String),
        RequestHandler.resolveOffset { page := .undef, colors := cs } = 0)
    ∧ (∀ (cs : Option (List String)) (s : String),
        RequestHandler.resolveOffset { page := .str s, colors := cs } = 0) := by
  refine ⟨fun cs n => ?_, fun cs => rfl, fun cs s => rfl⟩
  show n * 10 - 10 = (n - 1) * 10
  ring

/-- Claim C3 counterexample: a 2xx response whose body is parseable JSON but
not an array is passed through as that JSON value — it is not collapsed to
the uniform no-value outcome the claim requires for every body that is not a
parseable JSON array. -/
theorem c3_fetch_counterexample :
    request (.response 200 (.parsed .obj)) = .value .obj
    ∧ request (.response 200 (.parsed .obj)) ≠ .noValue := by
  decide

/-- Claim C3 (amended): every HTTP status in [400, 600), every 2xx response
whose body is not parseable JSON, and every transport failure yield the
uniform no-value outcome, and the request promise never rejects; only a 2xx
body that parses to a JSON non-array escapes as that value (see the
counterexample). -/
theorem c3_fetch_amended :
    (∀ (status : Nat) (body : Body), 400 ≤ status → status < 600 →
        request (.response status body) = .noValue)
    ∧ (∀ status : Nat, 200 ≤ status → status < 300 →
        request (.response status .unparseable) = .noValue)
    ∧ request .transportFailure = .noValue
    ∧ (∀ outcome : HttpOutcome, requestPromise outcome = .resolved (request outcome)) := by
  refine ⟨?_, ?_, rfl, ?_⟩
  · intro status body h1 h2
    have hnotok : ¬ (200 ≤ status ∧ status < 300) := by omega
    by_cases h4 : 400 < status ∧ status < 600
    · simp [request, requestUncaught, hnotok, h4]
    · simp [request, requestUncaught, hnotok, h4]
  · intro status h1 h2
    have hok : 200 ≤ status ∧ status < 300 := ⟨h1, h2⟩
    simp [request, requestUncaught, hok]
  · intro outcome
    unfold requestPromise request
    cases requestUncaught outcome <;> rfl

/-- Witness for the amended claim C3: the no-value outcome at a 404 response
and at a 200 response with an unparseable body. -/
theorem c3_fetch_amended_witness :
    request (.response 404 .unparseable) = .noValue
    ∧ request (.response 200 .unparseable) = .noValue :=
  ⟨c3_fetch_amended.1 404 .unparseable (by decide) (by decide),
   c3_fetch_amended.2.1 200 (by decide) (by decide)⟩

/-- Claim C7: closedPrimaryCount equals the number of records whose
disposition is exactly "closed" and whose color is an exact member of the
fixed primary set, and it is 0 for a page with zero records. -/
theorem c7_closed_primary_count :
    (∀ resp : PageResponse,
        ((ResponseHandler.resolveResponse resp).1).closedPrimaryCount =
          (resp.records.filter
            (fun r => r.disposition == "closed" && primaryColors.contains r.color)).length)
    ∧ ((ResponseHandler.resolveResponse emptyPageResponse).1).closedPrimaryCount = 0 := by
  refine ⟨fun resp => ?_, rfl⟩
  exact count_closed_primary_amend resp.records

/-- Claim C8: the aggregate's open field is exactly the subsequence of input
records whose disposition is "open", in input order, each carrying the
isPrimary flag derived from its color (the filter runs after the
derivation). -/
theorem c8_open_records :
    (∀ resp : PageResponse,
        ((ResponseHandler.resolveResponse resp).1).openRecords =
          (resp.records.filter (fun r => r.disposition == "open")).map
            ResponseHandler.amendIsPrimary)
    ∧ (∀ resp : PageResponse,
        List.Sublist ((ResponseHandler.resolveResponse resp).1).openRecords
          (ResponseHandler.deriveAndAmendIsPrimary resp.records))
    ∧ (∀ resp : PageResponse, ∀ r ∈ ((ResponseHandler.resolveResponse resp).1).openRecords,
        r.isPrimary = some (primaryColors.contains r.color)) := by
  have hopen : ∀ resp : PageResponse,
      ((ResponseHandler.resolveResponse resp).1).openRecords =
        (resp.records.filter (fun r => r.disposition == "open")).map
          ResponseHandler.amendIsPrimary := fun resp => filter_open_amend resp.records
  refine ⟨hopen, fun resp => ?_, fun resp r hr => ?_⟩
  · rw [hopen resp]
    unfold ResponseHandler.deriveAndAmendIsPrimary
    rw [← filter_open_amend]
    exact List.filter_sublist _
  · rw [hopen resp] at hr
    rcases List.mem_map.1 hr with ⟨r0, _, rfl⟩
    rfl

/-- Witness for claim C8: the open primary record of a two-record page keeps
its derived isPrimary flag. -/
theorem c8_open_records_witness :
    (ResponseHandler.amendIsPrimary sampleOpenRecord).isPrimary =
      some (primaryColors.contains (ResponseHandler.amendIsPrimary sampleOpenRecord).color) :=
  c8_open_records.2.2
    { records := [sampleOpenRecord, sampleClosedRecord]
      previousPage := Hint.null, nextPage := Hint.null }
    (ResponseHandler.amendIsPrimary sampleOpenRecord) (by decide)

/-- Claim C10: transformResponse invokes resolveResponse twice on the same
(mutated-in-place) response and returns the second result, which equals the
aggregate of a single application — re-deriving isPrimary on already-amended
records changes nothing. -/
theorem c10_transform_idempotent (resp : PageResponse) :
    transformResponse resp = (ResponseHandler.resolveResponse resp).1 := by
  show (ResponseHandler.resolveResponse (ResponseHandler.resolveResponse resp).2).1
      = (ResponseHandler.resolveResponse resp).1
  simp only [resolveResponse_fst, resolveResponse_snd, deriveAndAmend_idem]

end ManagedRecords

namespace ManagedRecords

/-- Claim C1 counterexample: the target page 2 fetch fails with a 500 while
both probes settle normally and the previous-page probe yields one record.
The claim requires the aggregate's previousPage to equal the probe result 1;
the call actually resolves to an aggregate whose previousPage and nextPage
are undefined — the probe results are discarded when the merge step throws
on the missing current page. -/
theorem c1_target_failure_counterexample :
    retrieve c1options c1env =
      .aggregate { previousPage := .undef, nextPage := .undef, ids := [], openRecords := []
                   closedPrimaryCount := 0 }
    ∧ probeHint c1env.prevOutcome 1 = .page 1 := by
  decide

/-- Claim C1 (amended): whenever the target-page fetch yields no value while
the probes settle, retrieve resolves — no unhandled rejection — to the fully
degraded aggregate: previousPage and nextPage are undefined (the
adjacency-probe results are lost, not propagated), ids and open are empty,
and closedPrimaryCount is 0. -/
theorem c1_target_failure_amended (options : Options) (env : PagesEnv)
    (h : request env.currentOutcome = .noValue) :
    retrievePromise options env =
      .resolved (.aggregate { previousPage := .undef, nextPage := .undef, ids := []
                              openRecords := [], closedPrimaryCount := 0 }) := by
  unfold retrievePromise retrieveUncaught
  rw [requestPages_result_noValue options env h, transformResponse_empty]

/-- Witness for the amended claim C1 at the concrete 500-failure scenario. -/
theorem c1_target_failure_amended_witness :
    request c1env.currentOutcome = .noValue
    ∧ retrievePromise c1options c1env =
        .resolved (.aggregate { previousPage := .undef, nextPage := .undef, ids := []
                                openRecords := [], closedPrimaryCount := 0 }) :=
  ⟨by decide, c1_target_failure_amended c1options c1env (by decide)⟩

/-- Claim C4 counterexample: when the target page returns a 2xx response
whose body is parseable JSON but not an array, the transform stage throws and
the final catch resolves the call to undefined — the promise resolves, but
not to an AggregateResult. -/
theorem c4_retrieve_counterexample :
    retrieve c4options c4env = .noValue
    ∧ retrieveUncaught c4options c4env =
        .rejected "TypeError: this.response.map is not a function" := by
  decide

/-- Claim C4 (amended): for every option set and every outcome of the three
fetches, the retrieve promise never rejects — it always resolves; and it
resolves to an AggregateResult in every case except when the target-page
request passes through a parseable JSON non-array body, where it resolves to
undefined. -/
theorem c4_retrieve_amended (options : Options) (env : PagesEnv) :
    retrievePromise options env = .resolved (retrieve options env)
    ∧ (request env.currentOutcome ≠ .value .obj →
        ∃ a, retrieve options env = .aggregate a) := by
  constructor
  · unfold retrievePromise retrieve
    cases retrieveUncaught options env <;> rfl
  · intro hne
    cases hc : request env.currentOutcome with
    | noValue => exact ⟨_, retrieve_of_noValue options env hc⟩
    | value j =>
      cases j with
      | arr l => exact ⟨_, retrieve_of_arr options env l hc⟩
      | obj => exact absurd hc hne

/-- Witness for the amended claim C4 in the all-successful environment. -/
theorem c4_retrieve_amended_witness :
    retrievePromise c4options happyEnv = .resolved (retrieve c4options happyEnv)
    ∧ ∃ a, retrieve c4options happyEnv = .aggregate a :=
  ⟨(c4_retrieve_amended c4options happyEnv).1,
   (c4_retrieve_amended c4options happyEnv).2 (by decide)⟩

/-- Claim C5 counterexample: target page 3, next-page probe yields one
record, so the claim requires the aggregate's nextPage to equal 4; but the
target fetch fails at the transport level and the aggregate carries
undefined in both hint slots. -/
theorem c5_adjacency_counterexample :
    probeHint c5env.nextOutcome 4 = .page 4
    ∧ retrieve c5options c5env =
        .aggregate { previousPage := .undef, nextPage := .undef, ids := [], openRecords := []
                     closedPrimaryCount := 0 } := by
  decide

/-- Claim C5 (amended): whenever the target-page fetch yields a JSON array,
the aggregate's previousPage equals targetPage - 1 exactly when the
previous-page probe yielded at least one record and is null otherwise, and
symmetrically for nextPage; when the target-page fetch fails, both slots are
undefined instead (see the counterexample). -/
theorem c5_adjacency_amended (options : Options) (env : PagesEnv) (l : List Record)
    (_hs : noStrPage options = true)
    (hc : request env.currentOutcome = .value (.arr l)) :
    ∃ a, retrieve options env = .aggregate a
      ∧ (a.previousPage = .page (pageOr1 options.page - 1) ↔
          ∃ rs, request env.prevOutcome = ReqResult.value (Json.arr rs) ∧ rs ≠ [])
      ∧ (a.previousPage = .page (pageOr1 options.page - 1) ∨ a.previousPage = .null)
      ∧ (a.nextPage = .page (pageOr1 options.page + 1) ↔
          ∃ rs, request env.nextOutcome = ReqResult.value (Json.arr rs) ∧ rs ≠ [])
      ∧ (a.nextPage = .page (pageOr1 options.page + 1) ∨ a.nextPage = .null) :=
  ⟨_, retrieve_of_arr options env l hc,
    probeHint_eq_page_iff env.prevOutcome _,
    probeHint_cases env.prevOutcome _,
    probeHint_eq_page_iff env.nextOutcome _,
    probeHint_cases env.nextOutcome _⟩

/-- Witness for the amended claim C5: target page 2, previous probe with one
record, next probe empty. -/
theorem c5_adjacency_amended_witness :
    ∃ a, retrieve { page := JsVal.num 2, colors := none } happyEnv = .aggregate a
      ∧ (a.previousPage = .page (pageOr1 (JsVal.num 2) - 1) ↔
          ∃ rs, request happyEnv.prevOutcome = ReqResult.value (Json.arr rs) ∧ rs ≠ [])
      ∧ (a.previousPage = .page (pageOr1 (JsVal.num 2) - 1) ∨ a.previousPage = .null)
      ∧ (a.nextPage = .page (pageOr1 (JsVal.num 2) + 1) ↔
          ∃ rs, request happyEnv.nextOutcome = ReqResult.value (Json.arr rs) ∧ rs ≠ [])
      ∧ (a.nextPage = .page (pageOr1 (JsVal.num 2) + 1) ∨ a.nextPage = .null) :=
  c5_adjacency_amended { page := JsVal.num 2, colors := none } happyEnv
    [sampleOpenRecord, sampleClosedRecord] (by decide) (by decide)

/-- Claim C6: when the target page is 1, the previous-page probe's payload
is computed for page 0 and carries offset -limit = -10, forwarded to the
data source unmodified as the second request issued. -/
theorem c6_page_zero_probe (options : Options) (env : PagesEnv)
    (_hs : noStrPage options = true) (h1 : pageOr1 options.page = 1) :
    (requestPages options env).payloads[1]? =
      some (RequestHandler.resolvePayload { options with page := .num 0 })
    ∧ (RequestHandler.resolvePayload { options with page := .num 0 }).offset = -10 := by
  constructor
  · unfold requestPages peek
    simp [h1]
  · rfl

/-- Witness for claim C6 at options targeting page 1. -/
theorem c6_page_zero_probe_witness :
    (requestPages { page := JsVal.num 1, colors := none } happyEnv).payloads[1]? =
      some (RequestHandler.resolvePayload { page := JsVal.num 0, colors := none })
    ∧ (RequestHandler.resolvePayload { page := JsVal.num 0, colors := none }).offset = -10 :=
  c6_page_zero_probe { page := JsVal.num 1, colors := none } happyEnv (by decide) (by decide)

/-- Claim C9: requestPages mutates the caller-supplied options in place —
after the probes are launched the caller's options.page equals
targetPage + 1, no longer the page originally passed. -/
theorem c9_options_mutation (options : Options) (env : PagesEnv) (n : Int)
    (hp : options.page = .num n) (h1 : 1 ≤ n) :
    ((requestPages options env).finalOptions).page = .num (n + 1)
    ∧ ((requestPages options env).finalOptions).page ≠ options.page := by
  have hn0 : ¬ (n = 0) := by omega
  have hcp : pageOr1 options.page = n := by
    rw [hp]
    unfold pageOr1
    simp [hn0]
  have hfinal : ((requestPages options env).finalOptions).page = .num (n + 1) := by
    unfold requestPages peek
    simp [hcp]
  refine ⟨hfinal, ?_⟩
  rw [hfinal, hp]
  simp only [ne_eq, JsVal.num.injEq]
  omega

/-- Witness for claim C9 at a caller-supplied page of 2. -/
theorem c9_options_mutation_witness :
    ((requestPages { page := JsVal.num 2, colors := none } happyEnv).finalOptions).page
        = .num (2 + 1)
    ∧ ((requestPages { page := JsVal.num 2, colors := none } happyEnv).finalOptions).page
        ≠ ({ page := JsVal.num 2, colors := none } : Options).page :=
  c9_options_mutation { page := JsVal.num 2, colors := none } happyEnv 2 rfl (by decide)

end ManagedRecords
